import Mathlib

/-!
Shallow embedding of `src/dataset/request/request.py`: a facade (`Request`)
wrapping a host-framework HTTP request with lazy, cached body parsing and
authentication.  Mutation of the facade is modelled by explicit state
passing: an operation takes a `Request` and returns the updated `Request`
together with an `Except PyErr` result (Python exceptions become the
`.error` case, and state changes made before a `raise` persist in the
returned state).
-/

set_option autoImplicit false

namespace RequestFacade

/-- An opaque Python object (a user, a token, or similar). `Option PyObj`
models a Python value that may be `None`. -/
structure PyObj where
  tag : String
deriving DecidableEq, Repr

/-- The exceptions reachable in the modelled code: `TypeError` from a call
with an unexpected keyword argument (carrying the offending name),
`RawPostDataException` and `UnreadablePostError` from reading the raw
request body, `UnsupportedMediaType` (carrying the offending media type)
and `APIException` from `dataset.request.utils.exceptions`, and
`parseFailure` standing for an arbitrary exception raised by a configured
parser during decoding. -/
inductive PyErr where
  | typeError (kwarg : String)
  | rawPostDataException
  | unreadablePostError
  | unsupportedMediaType (media_type : String)
  | apiException
  | parseFailure (msg : String)
deriving DecidableEq, Repr

/-- A cache cell of the facade: the `Empty` sentinel class of the source
("placeholder for unset attributes; cannot use None, as that may be a
valid value") versus a resolved value.  Also used for the `_user`, `_auth`
and `_authenticator` attributes, where `empty` models the attribute being
absent (`hasattr` false). -/
inductive Cached (α : Type) where
  | empty
  | value (v : α)
deriving DecidableEq, Repr

/-- Extract a resolved cache value, with a default for the unset case. -/
def Cached.getD {α : Type} : Cached α → α → α
  | .empty, d => d
  | .value v, _ => v

/-- `_hasattr(obj, name)` of the source: `not getattr(obj, name) is Empty`. -/
def Cached.isSet {α : Type} : Cached α → Bool
  | .empty => false
  | .value _ => true

/-- The container type of a parsed-data value: Django `QueryDict` (with the
encoding argument it was constructed with), a plain Python `dict`, or an
arbitrary parser-produced object. -/
inductive DataKind where
  | queryDict (encoding : Option String)
  | plainDict
  | objVal (tag : String)
deriving DecidableEq, Repr

/-- A parsed-data value: its container type and its mapping entries. -/
structure DataObj where
  kind : DataKind
  entries : List (String × String)
deriving DecidableEq, Repr

/-- Django `MultiValueDict`, holding uploaded files keyed by field name.
Truthiness in Python is `entries != []`. -/
structure MultiValueDict where
  entries : List (String × String)
deriving DecidableEq, Repr

/-- A resolved non-null body stream: either the raw request object itself
(body not yet read) or a fresh `io.BytesIO` buffer over the body bytes. -/
inductive StreamVal where
  | rawRequest
  | bytesBuffer (body : String)
deriving DecidableEq, Repr

/-- The exceptions Django `HttpRequest.body` can raise:
`RawPostDataException` (body already consumed) or `UnreadablePostError`
(client disconnect). -/
inductive BodyErr where
  | rawPostData
  | unreadablePost
deriving DecidableEq, Repr

def BodyErr.toPyErr : BodyErr → PyErr
  | .rawPostData => .rawPostDataException
  | .unreadablePost => .unreadablePostError

/-- The underlying framework request object, with the attributes the facade
reads and writes: `META` (an association list, first binding wins),
`_read_started`, `body` (which may raise), the `_post`/`_files` caches
(`hasPost`/`hasFiles` model `hasattr(request, '_post')` and
`hasattr(request, '_files')`; `postVal`/`filesVal` are what
`request.POST`/`request.FILES` return), `_encoding`, the
`_force_auth_user`/`_force_auth_token` markers, and the `user`/`auth`
slots the facade's setters write through to. -/
structure HttpRequest where
  meta : List (String × String)
  read_started : Bool
  body : Except BodyErr String
  hasPost : Bool
  postVal : DataObj
  hasFiles : Bool
  filesVal : MultiValueDict
  encoding : Option String
  methodStr : String
  force_auth_user : Option PyObj
  force_auth_token : Option PyObj
  userAttr : Option PyObj
  authAttr : Option PyObj
deriving Repr

/-- The result a parser's `parse` returns: either the raw data (no
`.data`/`.files` attributes, so unpacking falls back to empty files) or a
`DataAndFiles` pair. -/
inductive Parsed where
  | rawData (data : DataObj)
  | dataAndFiles (data : DataObj) (files : MultiValueDict)
deriving DecidableEq, Repr

/-- A parser capability: its advertised `media_type` and its
`parse(stream, media_type, parser_context)` operation (the context is
passed as its encoding entry); raising is the `.error` case. -/
structure Parser where
  media_type : String
  parse : StreamVal → String → String → Except PyErr Parsed

/-- The outcome of one authenticator's `authenticate(request)` call:
return `None` (try the next one), return a `(user, auth)` pair, or raise
an `APIException`. -/
inductive AuthResult where
  | returnsNone
  | success (user : Option PyObj) (auth : Option PyObj)
  | raisesApi
deriving DecidableEq, Repr

/-- An authenticator capability: the synthetic `ForcedAuthentication`
class (which unconditionally returns its `(force_user, force_token)`
pair), or a configured authenticator with a distinguishing tag and a
fixed call outcome. -/
inductive Authenticator where
  | forced (force_user force_token : Option PyObj)
  | custom (tag : String) (result : AuthResult)
deriving DecidableEq, Repr

/-- `authenticate(self, request)`: `ForcedAuthentication.authenticate`
returns `(self.force_user, self.force_token)`; a configured authenticator
produces its outcome. -/
def Authenticator.authenticate : Authenticator → AuthResult
  | .forced u t => .success u t
  | .custom _ r => r

/-- Modelled from the spec: the settings provider
(`dataset.request.utils.settings.api_settings` and Django
`settings.DEFAULT_CHARSET`, whose source is not part of this repository
snapshot).  Per the spec it "supplies default charset, default
anonymous-identity factory, default-token factory, default negotiator
class".  `selectParser` is the negotiator produced by
`DEFAULT_CONTENT_NEGOTIATION_CLASS()`, modelled as a choice function of
the declared content type and the parser list.  `unauthenticatedUser`
(resp. `unauthenticatedToken`) is `some v` when the
`UNAUTHENTICATED_USER` (resp. `UNAUTHENTICATED_TOKEN`) factory is
configured and calling it yields `v`, and `none` when unconfigured. -/
structure ApiSettings where
  selectParser : String → List Parser → Option Parser
  unauthenticatedUser : Option PyObj
  unauthenticatedToken : Option PyObj
  defaultCharset : String

/-- The facade state: the wrapped raw request, the parser and
authenticator configuration, the negotiator, the parsing context's
encoding entry, the cache cells, and the `method` override (set only by
`clone_request`; `none` means attribute passthrough to the raw request). -/
structure Request where
  _request : HttpRequest
  parsers : List Parser
  authenticators : List Authenticator
  negotiator : String → List Parser → Option Parser
  parserContextEncoding : String
  _data : Cached DataObj
  _files : Cached MultiValueDict
  _full_data : Cached DataObj
  _content_type : Cached String
  _stream : Cached (Option StreamVal)
  _user : Cached (Option PyObj)
  _auth : Cached (Option PyObj)
  _authenticator : Cached (Option Authenticator)
  method : Option String

/-- `meta.get(key)`: first binding of `key` in the META mapping. -/
def metaLookup (m : List (String × String)) (k : String) : Option String :=
  (m.find? (fun p => p.1 == k)).map (fun p => p.2)

/-- Validity of the digit part of a Python integer literal: nonempty,
begins and ends with a digit, underscores only singly and between digits. -/
def okDigits : List Char → Bool
  | [] => false
  | [c] => c.isDigit
  | c :: '_' :: rest => c.isDigit && okDigits rest
  | c :: rest => c.isDigit && okDigits rest

/-- Numeric value of a digit list. -/
def digitsToNat (cs : List Char) : Nat :=
  cs.foldl (fun n c => 10 * n + (c.toNat - 48)) 0

/-- Parse an unsigned digit run as Python `int` does (underscores allowed
between digits). -/
def pyIntDigits (cs : List Char) : Option Int :=
  if okDigits cs then some (Int.ofNat (digitsToNat (cs.filter (fun c => c != '_')))) else none

/-- Strip leading and trailing whitespace from a character list. -/
def trimChars (cs : List Char) : List Char :=
  ((cs.dropWhile Char.isWhitespace).reverse.dropWhile Char.isWhitespace).reverse

/-- Python `int(s)` on a string: strip surrounding whitespace, optional
sign, digits with underscores between them; `none` models the
`ValueError` raised on anything else. -/
def pyIntOfString (s : String) : Option Int :=
  match trimChars s.toList with
  | '+' :: rest => pyIntDigits rest
  | '-' :: rest => (pyIntDigits rest).map (fun n => -n)
  | rest => pyIntDigits rest

/-- The declared content length resolved as in `_load_stream`:
`int(meta.get('CONTENT_LENGTH', meta.get('HTTP_CONTENT_LENGTH', 0)))`
with `ValueError`/`TypeError` caught and replaced by 0. -/
def contentLengthOf (m : List (String × String)) : Int :=
  match metaLookup m "CONTENT_LENGTH" with
  | some s => (pyIntOfString s).getD 0
  | none =>
    match metaLookup m "HTTP_CONTENT_LENGTH" with
    | some s => (pyIntOfString s).getD 0
    | none => 0

/-- Modelled from the spec: the host framework's
`parse_header_parameters` (Django utility, not part of this repository
snapshot) as used by `is_form_media_type`; the base media type is the
segment before the first semicolon, stripped of surrounding whitespace
and lowercased. -/
def baseMediaTypeOf (line : String) : String :=
  String.mk ((trimChars (line.toList.takeWhile (fun c => c != ';'))).map Char.toLower)

/-- `is_form_media_type`: the base media type is the URL-encoded-form or
the multipart-form media type. -/
def is_form_media_type (media_type : String) : Bool :=
  baseMediaTypeOf media_type == "application/x-www-form-urlencoded" ||
  baseMediaTypeOf media_type == "multipart/form-data"

/-- Python `a or b` on an optional string `a` (both `None` and the empty
string are falsy). -/
def pyStrOr (v : Option String) (d : String) : String :=
  match v with
  | some s => if s == "" then d else s
  | none => d

/-- `Request.__init__(self, request, parsers=None, authenticators=None)`:
store the raw request, default the parser and authenticator lists to
empty tuples, take the negotiator from the settings
(`self._default_negotiator()`), initialise every cache cell to the
`Empty` sentinel, set the parser context's encoding to
`request.encoding or settings.DEFAULT_CHARSET`, and, if the raw request
carries a `_force_auth_user` or `_force_auth_token` marker, replace the
authenticator list by the single synthetic `ForcedAuthentication`. -/
def Request.init (cfg : ApiSettings) (request : HttpRequest)
    (parsers : Option (List Parser)) (authenticators : Option (List Authenticator)) : Request :=
  let auths := match authenticators with | none => [] | some a => a
  let auths :=
    match request.force_auth_user, request.force_auth_token with
    | none, none => auths
    | u, t => [Authenticator.forced u t]
  { _request := request
    parsers := match parsers with | none => [] | some p => p
    authenticators := auths
    negotiator := cfg.selectParser
    parserContextEncoding := pyStrOr request.encoding cfg.defaultCharset
    _data := .empty
    _files := .empty
    _full_data := .empty
    _content_type := .empty
    _stream := .empty
    _user := .empty
    _auth := .empty
    _authenticator := .empty
    method := none }

/-- The `content_type` property:
`meta.get('CONTENT_TYPE', meta.get('HTTP_CONTENT_TYPE', ''))` (a string;
never Python `None`). -/
def Request.content_type (r : Request) : String :=
  match metaLookup r._request.meta "CONTENT_TYPE" with
  | some v => v
  | none =>
    match metaLookup r._request.meta "HTTP_CONTENT_TYPE" with
    | some v => v
    | none => ""

/-- `_load_stream`: resolve the declared content length (0 on missing or
malformed); if 0 the stream is `None`; else if the body has not been read
the stream is the raw request itself; else it is a fresh byte buffer over
`self.body` (whose read may raise, in which case `_stream` stays unset).
Returns the value stored, alongside the updated state. -/
def Request._load_stream (r : Request) : Request × Except PyErr (Option StreamVal) :=
  let cl := contentLengthOf r._request.meta
  if cl == 0 then ({ r with _stream := .value none }, .ok none)
  else if !r._request.read_started then
    ({ r with _stream := .value (some .rawRequest) }, .ok (some .rawRequest))
  else
    match r._request.body with
    | .ok b => ({ r with _stream := .value (some (.bytesBuffer b)) }, .ok (some (.bytesBuffer b)))
    | .error e => (r, .error e.toPyErr)

/-- The `stream` property: load on first access, return the cached value
afterwards. -/
def Request.stream (r : Request) : Request × Except PyErr (Option StreamVal) :=
  match r._stream with
  | .value v => (r, .ok v)
  | .empty => r._load_stream

/-- `_supports_form_parsing`: some configured parser advertises exactly
one of the two form media types. -/
def Request._supports_form_parsing (r : Request) : Bool :=
  r.parsers.any (fun p =>
    p.media_type == "application/x-www-form-urlencoded" ||
    p.media_type == "multipart/form-data")

/-- `QueryDict('', encoding=self._request._encoding)`. -/
def emptyQueryDict (req : HttpRequest) : DataObj :=
  { kind := DataKind.queryDict req.encoding, entries := [] }

/-- The empty-body result of `_parse`: an empty `QueryDict` when the
captured media type is truthy and form-like, else a plain empty dict,
with an empty `MultiValueDict` for files. -/
def parseEmptyResult (req : HttpRequest) (media_type : String) : DataObj × MultiValueDict :=
  (if media_type != "" && is_form_media_type media_type then emptyQueryDict req
   else { kind := DataKind.plainDict, entries := [] },
   { entries := [] })

/-- `_parse`: capture `media_type = self.content_type`; get the stream,
catching `RawPostDataException` (re-raise when the raw request has no
`_post` cache; return the raw request's `POST`/`FILES` when form parsing
is supported; else continue with a `None` stream).  A `None` stream gives
the empty result (the `media_type is None` disjunct of the source is
unreachable since `content_type` always returns a string).  Otherwise ask
the negotiator for a parser; none selected raises
`UnsupportedMediaType(media_type)`; a decode exception resets `_data`,
`_files` and `_full_data` to empty defaults and re-raises; a decode
result is unpacked as `(parsed.data, parsed.files)`, falling back to
`(parsed, MultiValueDict())` when the attributes are absent. -/
def Request._parse (r : Request) : Request × Except PyErr (DataObj × MultiValueDict) :=
  let media_type := r.content_type
  let s := r.stream
  let r1 := s.1
  match s.2 with
  | .error PyErr.rawPostDataException =>
    if !r1._request.hasPost then (r1, .error PyErr.rawPostDataException)
    else if r1._supports_form_parsing then (r1, .ok (r1._request.postVal, r1._request.filesVal))
    else (r1, .ok (parseEmptyResult r1._request media_type))
  | .error e => (r1, .error e)
  | .ok none => (r1, .ok (parseEmptyResult r1._request media_type))
  | .ok (some sv) =>
    match r1.negotiator media_type r1.parsers with
    | none => (r1, .error (PyErr.unsupportedMediaType media_type))
    | some p =>
      match p.parse sv media_type r1.parserContextEncoding with
      | .error e =>
        let qd := emptyQueryDict r1._request
        ({ r1 with _data := .value qd, _files := .value { entries := [] },
                   _full_data := .value qd }, .error e)
      | .ok (Parsed.rawData d) => (r1, .ok (d, { entries := [] }))
      | .ok (Parsed.dataAndFiles d f) => (r1, .ok (d, f))

/-- `self._full_data = self._data.copy(); self._full_data.update(self._files)`:
for a `QueryDict`, `MultiValueDict.update` extends the value lists; for
other containers `dict.update` lets file keys win on collision. -/
def combineDataFiles (d : DataObj) (f : MultiValueDict) : DataObj :=
  match d.kind with
  | DataKind.queryDict _ => { d with entries := d.entries ++ f.entries }
  | _ =>
    { d with entries :=
        d.entries.filter (fun p => !(f.entries.any (fun q => q.1 == p.1))) ++ f.entries }

/-- `_load_data_and_files`: no-op when `_data` is already resolved; else
run `_parse`, store `(data, files)`, set `_full_data` to the combination
(just the data when the files mapping is falsy), and, when the declared
content type is a form media type, mirror the parsed data and files onto
the raw request's `_post`/`_files` caches (`self._request._post =
self.POST; self._request._files = self.FILES`, which at this point return
`self._data` and `self._files`). -/
def Request._load_data_and_files (r : Request) : Request × Except PyErr Unit :=
  if r._data.isSet then (r, .ok ())
  else
    let s := r._parse
    let r1 := s.1
    match s.2 with
    | .error e => (r1, .error e)
    | .ok (d, f) =>
      let full := if f.entries.isEmpty then d else combineDataFiles d f
      let r2 := { r1 with _data := .value d, _files := .value f, _full_data := .value full }
      if is_form_media_type r2.content_type then
        ({ r2 with _request :=
            { r2._request with hasPost := true, postVal := d, hasFiles := true, filesVal := f } },
         .ok ())
      else (r2, .ok ())

/-- The `data` property: load data and files on first access, then return
the cached `_full_data`. -/
def Request.data (r : Request) : Request × Except PyErr DataObj :=
  match r._full_data with
  | .value v => (r, .ok v)
  | .empty =>
    let s := r._load_data_and_files
    match s.2 with
    | .ok _ => (s.1, .ok (s.1._full_data.getD { kind := DataKind.plainDict, entries := [] }))
    | .error e => (s.1, .error e)

/-- The `POST` property: ensure data is loaded, return `self._data` for a
form content type and an empty `QueryDict` otherwise. -/
def Request.POST (r : Request) : Request × Except PyErr DataObj :=
  let s := if r._data.isSet then (r, Except.ok ()) else r._load_data_and_files
  let r1 := s.1
  match s.2 with
  | .error e => (r1, .error e)
  | .ok _ =>
    if is_form_media_type r1.content_type then
      (r1, .ok (r1._data.getD { kind := DataKind.plainDict, entries := [] }))
    else (r1, .ok (emptyQueryDict r1._request))

/-- The `FILES` property: ensure data is loaded, return `self._files`. -/
def Request.FILES (r : Request) : Request × Except PyErr MultiValueDict :=
  let s := if r._files.isSet then (r, Except.ok ()) else r._load_data_and_files
  let r1 := s.1
  match s.2 with
  | .error e => (r1, .error e)
  | .ok _ => (r1, .ok (r1._files.getD { entries := [] }))

/-- The `user` setter: set `self._user` and write through to the raw
request's `user` slot. -/
def Request.setUser (r : Request) (value : Option PyObj) : Request :=
  { r with _user := .value value, _request := { r._request with userAttr := value } }

/-- The `auth` setter: set `self._auth` and write through to the raw
request's `auth` slot. -/
def Request.setAuth (r : Request) (value : Option PyObj) : Request :=
  { r with _auth := .value value, _request := { r._request with authAttr := value } }

/-- `_not_authenticated`: set `_authenticator = None`, then `self.user` to
the `UNAUTHENTICATED_USER` factory's result when configured else `None`,
then `self.auth` to the `UNAUTHENTICATED_TOKEN` factory's result when
configured else `None` (both through the write-through setters). -/
def Request._not_authenticated (r : Request) (cfg : ApiSettings) : Request :=
  (({ r with _authenticator := .value none }).setUser cfg.unauthenticatedUser).setAuth
    cfg.unauthenticatedToken

/-- The loop body of `_authenticate` over the remaining authenticators:
an `APIException` marks the request unauthenticated and re-raises; a
`(user, auth)` pair records the authenticator as successful and stores
the pair through the setters; `None` moves on; an exhausted list marks
the request unauthenticated. -/
def authLoop (cfg : ApiSettings) (r : Request) : List Authenticator → Request × Except PyErr Unit
  | [] => (r._not_authenticated cfg, .ok ())
  | a :: rest =>
    match a.authenticate with
    | .raisesApi => (r._not_authenticated cfg, .error PyErr.apiException)
    | .success u t => ((({ r with _authenticator := .value (some a) }).setUser u).setAuth t, .ok ())
    | .returnsNone => authLoop cfg r rest

/-- `_authenticate`: iterate the authenticator list in order. -/
def Request._authenticate (r : Request) (cfg : ApiSettings) : Request × Except PyErr Unit :=
  authLoop cfg r r.authenticators

/-- The `user` property: authenticate on first access, then return
`self._user`. -/
def Request.user (r : Request) (cfg : ApiSettings) : Request × Except PyErr (Option PyObj) :=
  match r._user with
  | .value v => (r, .ok v)
  | .empty =>
    let s := r._authenticate cfg
    match s.2 with
    | .ok _ => (s.1, .ok (s.1._user.getD none))
    | .error e => (s.1, .error e)

/-- The `auth` property: authenticate on first access, then return
`self._auth`. -/
def Request.auth (r : Request) (cfg : ApiSettings) : Request × Except PyErr (Option PyObj) :=
  match r._auth with
  | .value v => (r, .ok v)
  | .empty =>
    let s := r._authenticate cfg
    match s.2 with
    | .ok _ => (s.1, .ok (s.1._auth.getD none))
    | .error e => (s.1, .error e)

/-- The `successful_authenticator` property: authenticate on first
access, then return `self._authenticator`. -/
def Request.successful_authenticator (r : Request) (cfg : ApiSettings) :
    Request × Except PyErr (Option Authenticator) :=
  match r._authenticator with
  | .value v => (r, .ok v)
  | .empty =>
    let s := r._authenticate cfg
    match s.2 with
    | .ok _ => (s.1, .ok (s.1._authenticator.getD none))
    | .error e => (s.1, .error e)

/-- The keyword parameters `Request.__init__` accepts, from its def line
(`self` aside); the `parser_context` parameter present upstream was
removed in this repository. -/
def requestInitParamNames : List String := ["request", "parsers", "authenticators"]

/-- The keyword-argument names `clone_request` passes in its
`Request(...)` call. -/
def cloneRequestKwargNames : List String :=
  ["request", "parsers", "authenticators", "negotiator", "parser_context"]

/-- Python call semantics: the first passed keyword argument that matches
no parameter of the callee, if any; such a call raises `TypeError`. -/
def unexpectedKwarg : Option String :=
  cloneRequestKwargNames.find? (fun k => !(requestInitParamNames.contains k))

/-- `clone_request(request, method)`: call
`Request(request=..., parsers=..., authenticators=..., negotiator=...,
parser_context=...)` — which raises `TypeError` whenever an unexpected
keyword argument is passed — and, on the branch where the call returns,
copy `_data`, `_files`, `_full_data`, `_content_type` and `_stream`
verbatim, set `method`, and copy `_user`, `_auth` and `_authenticator`
when present (the renderer and versioning attributes of the source are
outside this model). -/
def clone_request (cfg : ApiSettings) (request : Request) (method : String) :
    Except PyErr Request :=
  match unexpectedKwarg with
  | some k => .error (PyErr.typeError k)
  | none =>
    let ret := Request.init cfg request._request (some request.parsers)
      (some request.authenticators)
    let ret := { ret with
      _data := request._data
      _files := request._files
      _full_data := request._full_data
      _content_type := request._content_type
      _stream := request._stream
      method := some method }
    let ret := if request._user.isSet then { ret with _user := request._user } else ret
    let ret := if request._auth.isSet then { ret with _auth := request._auth } else ret
    let ret :=
      if request._authenticator.isSet then { ret with _authenticator := request._authenticator }
      else ret
    .ok ret

/-- The externally reachable operations of the facade that can mutate its
cached state: reading the `stream`, `data`, `user`, `auth`,
`successful_authenticator`, `POST` and `FILES` properties. -/
inductive FacadeOp where
  | readStream
  | readData
  | readUser
  | readAuth
  | readSuccessfulAuthenticator
  | readPOST
  | readFILES
deriving DecidableEq, Repr

/-- The facade state after performing one operation (the returned value
or exception is discarded; exceptional states are observable too). -/
def Request.stepOp (r : Request) (cfg : ApiSettings) : FacadeOp → Request
  | .readStream => (r.stream).1
  | .readData => (r.data).1
  | .readUser => (r.user cfg).1
  | .readAuth => (r.auth cfg).1
  | .readSuccessfulAuthenticator => (r.successful_authenticator cfg).1
  | .readPOST => (r.POST).1
  | .readFILES => (r.FILES).1

/-- The authentication invariant of the facade, on its `_user` and
`_authenticator` cells: once `_authenticator` is resolved, `_user` is
set, and a non-null resolved authenticator comes with a non-null user. -/
def authInvOf (u : Cached (Option PyObj)) : Cached (Option Authenticator) → Bool
  | .empty => true
  | .value none => u.isSet
  | .value (some _) =>
    match u with
    | .value (some _) => true
    | _ => false

/-- The authentication invariant, as a predicate on the facade state. -/
def Request.authUserInv (r : Request) : Bool := authInvOf r._user r._authenticator

/-- An authenticator meets its interface contract ("producing an identity
from a request"): when its `authenticate` returns a pair, the identity
component is non-null. -/
def Authenticator.wellBehaved (a : Authenticator) : Bool :=
  match a.authenticate with
  | AuthResult.success u _ => u.isSome
  | _ => true

/-- Concrete fixtures used by the witnesses below. -/
def noneNegotiation : String → List Parser → Option Parser := fun _ _ => none

/-- A negotiator selecting the first configured parser. -/
def firstNegotiation : String → List Parser → Option Parser := fun _ ps => ps.head?

/-- A settings fixture: first-parser negotiation, an anonymous-user
factory configured, no token factory. -/
def cfg0 : ApiSettings :=
  { selectParser := firstNegotiation
    unauthenticatedUser := some { tag := "AnonymousUser" }
    unauthenticatedToken := none
    defaultCharset := "utf-8" }

/-- A raw-request fixture: no headers, body unread and empty, no host
form caches, no forced-auth markers. -/
def baseReq : HttpRequest :=
  { meta := []
    read_started := false
    body := Except.ok ""
    hasPost := false
    postVal := { kind := DataKind.plainDict, entries := [] }
    hasFiles := false
    filesVal := { entries := [] }
    encoding := none
    methodStr := "GET"
    force_auth_user := none
    force_auth_token := none
    userAttr := none
    authAttr := none }

/-! ### State-preservation lemmas -/

theorem stream_request (r : Request) : ((r.stream).1)._request = r._request := by
  unfold Request.stream Request._load_stream
  dsimp only
  repeat' split
  all_goals rfl

theorem stream_parsers (r : Request) : ((r.stream).1).parsers = r.parsers := by
  unfold Request.stream Request._load_stream
  dsimp only
  repeat' split
  all_goals rfl

theorem stream_negotiator (r : Request) : ((r.stream).1).negotiator = r.negotiator := by
  unfold Request.stream Request._load_stream
  dsimp only
  repeat' split
  all_goals rfl

theorem stream_pce (r : Request) :
    ((r.stream).1).parserContextEncoding = r.parserContextEncoding := by
  unfold Request.stream Request._load_stream
  dsimp only
  repeat' split
  all_goals rfl

theorem stream_data_cell (r : Request) : ((r.stream).1)._data = r._data := by
  unfold Request.stream Request._load_stream
  dsimp only
  repeat' split
  all_goals rfl

theorem stream_files_cell (r : Request) : ((r.stream).1)._files = r._files := by
  unfold Request.stream Request._load_stream
  dsimp only
  repeat' split
  all_goals rfl

theorem stream_full_data_cell (r : Request) : ((r.stream).1)._full_data = r._full_data := by
  unfold Request.stream Request._load_stream
  dsimp only
  repeat' split
  all_goals rfl

theorem stream_user_cell (r : Request) : ((r.stream).1)._user = r._user := by
  unfold Request.stream Request._load_stream
  dsimp only
  repeat' split
  all_goals rfl

theorem stream_auth_cell (r : Request) : ((r.stream).1)._auth = r._auth := by
  unfold Request.stream Request._load_stream
  dsimp only
  repeat' split
  all_goals rfl

theorem stream_authenticator_cell (r : Request) :
    ((r.stream).1)._authenticator = r._authenticator := by
  unfold Request.stream Request._load_stream
  dsimp only
  repeat' split
  all_goals rfl

theorem stream_authenticators (r : Request) :
    ((r.stream).1).authenticators = r.authenticators := by
  unfold Request.stream Request._load_stream
  dsimp only
  repeat' split
  all_goals rfl

theorem stream_content_type (r : Request) :
    ((r.stream).1).content_type = r.content_type := by
  unfold Request.content_type
  rw [stream_request r]

theorem stream_supports_form (r : Request) :
    ((r.stream).1)._supports_form_parsing = r._supports_form_parsing := by
  unfold Request._supports_form_parsing
  rw [stream_parsers r]

theorem parse_user_cell (r : Request) : ((r._parse).1)._user = r._user := by
  unfold Request._parse
  dsimp only
  repeat' split
  all_goals simp only [stream_user_cell]

theorem parse_authenticator_cell (r : Request) :
    ((r._parse).1)._authenticator = r._authenticator := by
  unfold Request._parse
  dsimp only
  repeat' split
  all_goals simp only [stream_authenticator_cell]

theorem ldf_user_cell (r : Request) :
    ((r._load_data_and_files).1)._user = r._user := by
  unfold Request._load_data_and_files
  dsimp only
  repeat' split
  all_goals simp only [parse_user_cell]

theorem ldf_authenticator_cell (r : Request) :
    ((r._load_data_and_files).1)._authenticator = r._authenticator := by
  unfold Request._load_data_and_files
  dsimp only
  repeat' split
  all_goals simp only [parse_authenticator_cell]

theorem data_user_cell (r : Request) : ((r.data).1)._user = r._user := by
  unfold Request.data
  dsimp only
  repeat' split
  all_goals simp only [ldf_user_cell]

theorem data_authenticator_cell (r : Request) :
    ((r.data).1)._authenticator = r._authenticator := by
  unfold Request.data
  dsimp only
  repeat' split
  all_goals simp only [ldf_authenticator_cell]

theorem POST_user_cell (r : Request) : ((r.POST).1)._user = r._user := by
  unfold Request.POST
  dsimp only
  repeat' split
  all_goals simp only [ldf_user_cell]

theorem POST_authenticator_cell (r : Request) :
    ((r.POST).1)._authenticator = r._authenticator := by
  unfold Request.POST
  dsimp only
  repeat' split
  all_goals simp only [ldf_authenticator_cell]

theorem FILES_user_cell (r : Request) : ((r.FILES).1)._user = r._user := by
  unfold Request.FILES
  dsimp only
  repeat' split
  all_goals simp only [ldf_user_cell]

theorem FILES_authenticator_cell (r : Request) :
    ((r.FILES).1)._authenticator = r._authenticator := by
  unfold Request.FILES
  dsimp only
  repeat' split
  all_goals simp only [ldf_authenticator_cell]

/-- Skipping a run of authenticators that all return `None`. -/
theorem authLoop_skip (cfg : ApiSettings) (r : Request) (pre tail : List Authenticator)
    (hpre : ∀ b ∈ pre, b.authenticate = AuthResult.returnsNone) :
    authLoop cfg r (pre ++ tail) = authLoop cfg r tail := by
  induction pre with
  | nil => rfl
  | cons b pre ih =>
    simp only [List.cons_append, authLoop]
    rw [hpre b (List.mem_cons_self b pre)]
    exact ih (fun x hx => hpre x (List.mem_cons_of_mem b hx))

/-- After any run of `_authenticate` over well-behaved authenticators,
the authentication invariant holds in the resulting state, whether the
run succeeded, failed, or exhausted the list. -/
theorem authLoop_inv (cfg : ApiSettings) (r : Request) (l : List Authenticator)
    (hw : ∀ a ∈ l, a.wellBehaved = true) :
    ((authLoop cfg r l).1).authUserInv = true := by
  induction l with
  | nil => rfl
  | cons a rest ih =>
    simp only [authLoop]
    rcases ha : a.authenticate with _ | ⟨u, t⟩ | _
    · exact ih (fun x hx => hw x (List.mem_cons_of_mem a hx))
    · have hwa := hw a (List.mem_cons_self a rest)
      unfold Authenticator.wellBehaved at hwa
      rw [ha] at hwa
      rcases u with _ | x
      · simp at hwa
      · rfl
    · rfl

/-! ### Claims -/

/-- C1 (code bug): the claim states that cloning a facade with a target
method string produces a new facade wrapping the same raw request with
the method replaced and all already-resolved caches copied verbatim.  In
this repository `Request.__init__` accepts only the `request`, `parsers`
and `authenticators` parameters (the upstream `parser_context` parameter
was removed, and no `negotiator` parameter exists), while `clone_request`
still passes `negotiator=` and `parser_context=` keyword arguments to
`Request(...)`; by Python call semantics every call to `clone_request`
therefore raises `TypeError` instead of producing a clone, contradicting
the claim and the function's own docstring. -/
theorem claim1_clone_request_always_raises (cfg : ApiSettings) (r : Request) (m : String) :
    clone_request cfg r m = Except.error (PyErr.typeError "negotiator") := rfl

/-- A facade whose body stream read fails with `RawPostDataException`
because the host framework's own form parsing already drained the body
(so the raw request carries a `_post` cache), whose declared content type
is `application/json`, and whose parser list is empty (no form support). -/
def c2req : Request :=
  Request.init cfg0
    { baseReq with
        meta := [("CONTENT_TYPE", "application/json"), ("CONTENT_LENGTH", "15")]
        read_started := true
        body := Except.error BodyErr.rawPostData
        hasPost := true }
    none none

/-- C2 (counterexample): on `c2req` the body-stream read fails with the
reentrant-read error and no configured parser supports form media types,
yet `_parse` does not propagate the error as the claim states: it returns
an empty-data result instead, because the source re-raises only when the
raw request has no `_post` cache at all. -/
theorem claim2_counterexample :
    (c2req.stream).2 = Except.error PyErr.rawPostDataException ∧
    c2req._request.hasPost = true ∧
    c2req._supports_form_parsing = false ∧
    (c2req._parse).2 =
      Except.ok ({ kind := DataKind.plainDict, entries := [] }, { entries := [] }) ∧
    (c2req._parse).2 ≠ Except.error PyErr.rawPostDataException := by
  have h4 : (c2req._parse).2 =
      Except.ok (({ kind := DataKind.plainDict, entries := [] } : DataObj),
        ({ entries := [] } : MultiValueDict)) := rfl
  refine ⟨rfl, rfl, rfl, h4, ?_⟩
  rw [h4]
  intro h
  exact Except.noConfusion h

/-- C2 (amended): when retrieving the body stream fails with the
reentrant-read error, `_parse` re-raises that error only when the raw
request has no already-parsed form cache (`_post` attribute); when the
cache exists, it returns the raw request's parsed form fields and files
if some configured parser supports a form media type, and otherwise
recovers with the empty-body result instead of propagating the error. -/
theorem claim2_amended_recovery (r : Request)
    (hs : (r.stream).2 = Except.error PyErr.rawPostDataException) :
    (r._parse).2 =
      (if r._request.hasPost = false then Except.error PyErr.rawPostDataException
       else if r._supports_form_parsing = true then
         Except.ok (r._request.postVal, r._request.filesVal)
       else Except.ok (parseEmptyResult r._request r.content_type)) := by
  unfold Request._parse
  dsimp only
  rw [hs]
  dsimp only
  simp only [stream_request, stream_supports_form]
  rcases hb : r._request.hasPost <;> rcases hsf : r._supports_form_parsing <;>
    simp [hb, hsf]

/-- C2 (amended, witness): the amended statement evaluated on `c2req`. -/
theorem claim2_amended_witness :
    (c2req._parse).2 =
      (if c2req._request.hasPost = false then Except.error PyErr.rawPostDataException
       else if c2req._supports_form_parsing = true then
         Except.ok (c2req._request.postVal, c2req._request.filesVal)
       else Except.ok (parseEmptyResult c2req._request c2req.content_type)) :=
  claim2_amended_recovery c2req rfl

/-- C3: when the selected parser's decode step raises, `_parse` first
resets `_data` to an empty URL-encoded `QueryDict`, `_files` to an empty
`MultiValueDict`, and `_full_data` to that empty data, then re-raises the
original exception; and on the resulting facade a subsequent read of the
`data` property returns those empty defaults without raising. -/
theorem claim3_decode_failure_resets_caches (r : Request) (sv : StreamVal) (p : Parser)
    (e : PyErr)
    (hs : (r.stream).2 = Except.ok (some sv))
    (hneg : r.negotiator r.content_type r.parsers = some p)
    (hp : p.parse sv r.content_type r.parserContextEncoding = Except.error e) :
    (r._parse).2 = Except.error e ∧
    ((r._parse).1)._data = Cached.value (emptyQueryDict r._request) ∧
    ((r._parse).1)._files = Cached.value { entries := [] } ∧
    ((r._parse).1)._full_data = Cached.value (emptyQueryDict r._request) ∧
    ((r._parse).1).data = ((r._parse).1, Except.ok (emptyQueryDict r._request)) := by
  unfold Request._parse
  dsimp only
  rw [hs]
  dsimp only
  rw [stream_negotiator, stream_parsers, hneg]
  dsimp only
  rw [stream_pce, hp]
  simp only [stream_request]
  exact ⟨trivial, trivial, trivial, trivial, rfl⟩

/-- A parser for `application/json` whose decode step always raises. -/
def failingJsonParser : Parser :=
  { media_type := "application/json"
    parse := fun _ _ _ => Except.error (PyErr.parseFailure "malformed") }

/-- A facade with a JSON body and a parser whose decode raises. -/
def c3req : Request :=
  Request.init cfg0
    { baseReq with meta := [("CONTENT_TYPE", "application/json"), ("CONTENT_LENGTH", "5")] }
    (some [failingJsonParser]) none

/-- C3 (witness): the decode-failure reset evaluated on `c3req`. -/
theorem claim3_witness :
    (c3req._parse).2 = Except.error (PyErr.parseFailure "malformed") ∧
    ((c3req._parse).1)._data = Cached.value (emptyQueryDict c3req._request) ∧
    ((c3req._parse).1)._files = Cached.value { entries := [] } ∧
    ((c3req._parse).1)._full_data = Cached.value (emptyQueryDict c3req._request) ∧
    ((c3req._parse).1).data = ((c3req._parse).1, Except.ok (emptyQueryDict c3req._request)) :=
  claim3_decode_failure_resets_caches c3req StreamVal.rawRequest failingJsonParser
    (PyErr.parseFailure "malformed") rfl rfl rfl

/-- C4: during `_authenticate`, the authenticators before the raising one
having returned `None`, an authenticator raising an API exception stops
the iteration and the facade is marked unauthenticated before the
exception propagates: `_authenticator` is `None`, `_user` is the
configured anonymous-identity factory's result (else `None`), and `_auth`
is the configured default-token factory's result (else `None`) — all
three set in the state carried alongside the propagating exception. -/
theorem claim4_api_exception_marks_unauthenticated (cfg : ApiSettings) (r : Request)
    (pre : List Authenticator) (a : Authenticator) (rest : List Authenticator)
    (hl : r.authenticators = pre ++ a :: rest)
    (hpre : ∀ b ∈ pre, b.authenticate = AuthResult.returnsNone)
    (ha : a.authenticate = AuthResult.raisesApi) :
    (r._authenticate cfg).2 = Except.error PyErr.apiException ∧
    ((r._authenticate cfg).1)._authenticator = Cached.value none ∧
    ((r._authenticate cfg).1)._user = Cached.value cfg.unauthenticatedUser ∧
    ((r._authenticate cfg).1)._auth = Cached.value cfg.unauthenticatedToken := by
  unfold Request._authenticate
  rw [hl, authLoop_skip cfg r pre (a :: rest) hpre]
  simp only [authLoop]
  rw [ha]
  exact ⟨rfl, rfl, rfl, rfl⟩

/-- An authenticator that declines (returns `None`). -/
def skipAuth : Authenticator := Authenticator.custom "skip" AuthResult.returnsNone

/-- An authenticator that raises an API exception. -/
def apiFailAuth : Authenticator := Authenticator.custom "apifail" AuthResult.raisesApi

/-- An authenticator that succeeds with a non-null identity and token. -/
def goodAuth : Authenticator :=
  Authenticator.custom "token"
    (AuthResult.success (some { tag := "alice" }) (some { tag := "tok" }))

/-- A facade whose second authenticator raises an API exception. -/
def c4req : Request := Request.init cfg0 baseReq none (some [skipAuth, apiFailAuth])

/-- C4 (witness): the unauthenticated-marking evaluated on `c4req`. -/
theorem claim4_witness :
    (c4req._authenticate cfg0).2 = Except.error PyErr.apiException ∧
    ((c4req._authenticate cfg0).1)._authenticator = Cached.value none ∧
    ((c4req._authenticate cfg0).1)._user = Cached.value cfg0.unauthenticatedUser ∧
    ((c4req._authenticate cfg0).1)._auth = Cached.value cfg0.unauthenticatedToken :=
  claim4_api_exception_marks_unauthenticated cfg0 c4req [skipAuth] apiFailAuth []
    rfl (by decide) rfl

/-- C5: the authentication invariant — once the successful-authenticator
cell is resolved the user cell is set, and a non-null resolved
authenticator comes with a non-null user — holds at construction and is
preserved by every facade operation, for authenticators meeting their
interface contract (success carries a non-null identity). -/
theorem claim5_auth_invariant :
    (∀ (cfg : ApiSettings) (req : HttpRequest) (ps : Option (List Parser))
        (auths : Option (List Authenticator)),
      (Request.init cfg req ps auths).authUserInv = true) ∧
    (∀ (cfg : ApiSettings) (r : Request) (op : FacadeOp),
      (∀ a ∈ r.authenticators, a.wellBehaved = true) →
      r.authUserInv = true →
      (r.stepOp cfg op).authUserInv = true) := by
  constructor
  · intro cfg req ps auths
    rfl
  · intro cfg r op hw hinv
    cases op with
    | readStream =>
      unfold Request.stepOp Request.authUserInv
      rw [stream_user_cell, stream_authenticator_cell]
      exact hinv
    | readData =>
      unfold Request.stepOp Request.authUserInv
      rw [data_user_cell, data_authenticator_cell]
      exact hinv
    | readPOST =>
      unfold Request.stepOp Request.authUserInv
      rw [POST_user_cell, POST_authenticator_cell]
      exact hinv
    | readFILES =>
      unfold Request.stepOp Request.authUserInv
      rw [FILES_user_cell, FILES_authenticator_cell]
      exact hinv
    | readUser =>
      unfold Request.stepOp Request.user
      cases hu : r._user with
      | value v => exact hinv
      | empty =>
        dsimp only
        split
        · exact authLoop_inv cfg r r.authenticators hw
        · exact authLoop_inv cfg r r.authenticators hw
    | readAuth =>
      unfold Request.stepOp Request.auth
      cases hu : r._auth with
      | value v => exact hinv
      | empty =>
        dsimp only
        split
        · exact authLoop_inv cfg r r.authenticators hw
        · exact authLoop_inv cfg r r.authenticators hw
    | readSuccessfulAuthenticator =>
      unfold Request.stepOp Request.successful_authenticator
      cases hu : r._authenticator with
      | value v => exact hinv
      | empty =>
        dsimp only
        split
        · exact authLoop_inv cfg r r.authenticators hw
        · exact authLoop_inv cfg r r.authenticators hw

/-- A facade with a declining and a succeeding authenticator. -/
def c5req : Request := Request.init cfg0 baseReq none (some [skipAuth, goodAuth])

/-- C5 (witness): the invariant holds for a fresh facade and is preserved
by a `user` read on `c5req`. -/
theorem claim5_witness :
    (Request.init cfg0 baseReq none none).authUserInv = true ∧
    (c5req.stepOp cfg0 FacadeOp.readUser).authUserInv = true :=
  ⟨claim5_auth_invariant.1 cfg0 baseReq none none,
   claim5_auth_invariant.2 cfg0 c5req FacadeOp.readUser (by decide) rfl⟩

/-- When the stream resolves to `None`, `_parse` returns the empty-body
result and leaves the facade otherwise unchanged. -/
theorem parse_of_stream_none (r : Request)
    (hs : (r.stream).2 = Except.ok none) :
    r._parse = ((r.stream).1, Except.ok (parseEmptyResult r._request r.content_type)) := by
  unfold Request._parse
  dsimp only
  rw [hs]
  dsimp only
  rw [stream_request]

/-- When the stream resolves to `None` on a facade with unresolved data
caches, reading `data` yields the empty-body data value, caching it and
an empty files mapping. -/
theorem data_of_stream_none (r : Request)
    (hdata0 : r._data = Cached.empty)
    (hfull0 : r._full_data = Cached.empty)
    (hs : (r.stream).2 = Except.ok none) :
    (r.data).2 = Except.ok (parseEmptyResult r._request r.content_type).1 ∧
    ((r.data).1)._files = Cached.value { entries := [] } ∧
    ((r.data).1)._data = Cached.value (parseEmptyResult r._request r.content_type).1 := by
  have hldf : (r._load_data_and_files).2 = Except.ok () ∧
      ((r._load_data_and_files).1)._full_data =
        Cached.value (parseEmptyResult r._request r.content_type).1 ∧
      ((r._load_data_and_files).1)._files = Cached.value { entries := [] } ∧
      ((r._load_data_and_files).1)._data =
        Cached.value (parseEmptyResult r._request r.content_type).1 := by
    unfold Request._load_data_and_files
    rw [hdata0,
      if_neg (by simp [Cached.isSet] : ¬(Cached.isSet (Cached.empty : Cached DataObj) = true))]
    dsimp only
    rw [parse_of_stream_none r hs]
    dsimp only [parseEmptyResult]
    repeat' split
    all_goals exact ⟨rfl, rfl, rfl, rfl⟩
  obtain ⟨hl2, hlfull, hlfiles, hldata⟩ := hldf
  unfold Request.data
  rw [hfull0]
  dsimp only
  rw [hl2]
  dsimp only
  rw [hlfull]
  exact ⟨rfl, hlfiles, hldata⟩

/-- C6: for a facade with unresolved caches over a request whose declared
content length resolves to 0 — it is 0, missing, or malformed
(non-numeric values are treated as 0) — the resolved stream is `None`
and the parsed data is an empty mapping regardless of the declared
content type; stream resolution is idempotent, the second access
returning the cached `None` and leaving the state unchanged. -/
theorem claim6_zero_content_length (r : Request)
    (hstream0 : r._stream = Cached.empty)
    (hdata0 : r._data = Cached.empty)
    (hfull0 : r._full_data = Cached.empty)
    (hcl : contentLengthOf r._request.meta = 0) :
    (r.stream).2 = Except.ok none ∧
    ((r.stream).1).stream = ((r.stream).1, Except.ok none) ∧
    (∃ d, (r.data).2 = Except.ok d ∧ d.entries = []) := by
  have h1 : r.stream = ({ r with _stream := Cached.value none }, Except.ok none) := by
    unfold Request.stream
    rw [hstream0]
    unfold Request._load_stream
    dsimp only
    rw [hcl]
    rfl
  have hs2 : (r.stream).2 = Except.ok none := by rw [h1]
  have hd := data_of_stream_none r hdata0 hfull0 hs2
  refine ⟨hs2, ?_, (parseEmptyResult r._request r.content_type).1, hd.1, ?_⟩
  · rw [h1]
    rfl
  · dsimp only [parseEmptyResult]
    split <;> rfl

/-- A facade whose raw request declares a malformed (non-numeric) content
length. -/
def c6req : Request :=
  Request.init cfg0
    { baseReq with meta := [("CONTENT_TYPE", "application/json"), ("CONTENT_LENGTH", "abc")] }
    none none

/-- C6 (witness): the zero-length behaviour evaluated on `c6req`. -/
theorem claim6_witness :
    (c6req.stream).2 = Except.ok none ∧
    ((c6req.stream).1).stream = ((c6req.stream).1, Except.ok none) ∧
    (∃ d, (c6req.data).2 = Except.ok d ∧ d.entries = []) :=
  claim6_zero_content_length c6req rfl rfl rfl rfl

/-- C7: when the stream resolves to `None` on a facade with unresolved
data caches, `data` resolves to an empty URL-encoded `QueryDict` when the
declared media type is truthy and form-like, and to a generic empty
mapping when it is absent or not form-like, while `_files` resolves to an
empty multi-value mapping in both cases. -/
theorem claim7_empty_body_container (r : Request)
    (hdata0 : r._data = Cached.empty)
    (hfull0 : r._full_data = Cached.empty)
    (hs : (r.stream).2 = Except.ok none) :
    (r.data).2 = Except.ok
      (if (r.content_type != "" && is_form_media_type r.content_type) = true
       then emptyQueryDict r._request
       else { kind := DataKind.plainDict, entries := [] }) ∧
    ((r.data).1)._files = Cached.value { entries := [] } := by
  have hd := data_of_stream_none r hdata0 hfull0 hs
  exact ⟨hd.1, hd.2.1⟩

/-- A facade with an empty body and a declared multipart form media type. -/
def c7req : Request :=
  Request.init cfg0
    { baseReq with meta := [("CONTENT_TYPE", "multipart/form-data; boundary=x")] }
    none none

/-- C7 (witness): the empty-body container rule evaluated on `c7req`
(form media type, so the data container is an empty `QueryDict`). -/
theorem claim7_witness :
    (c7req.data).2 = Except.ok
      (if (c7req.content_type != "" && is_form_media_type c7req.content_type) = true
       then emptyQueryDict c7req._request
       else { kind := DataKind.plainDict, entries := [] }) ∧
    ((c7req.data).1)._files = Cached.value { entries := [] } :=
  claim7_empty_body_container c7req rfl rfl rfl

/-- The only exceptions a stream resolution can raise are the two
body-read exceptions of the host framework. -/
theorem stream_error_cases (r : Request) (e : PyErr)
    (h : (r.stream).2 = Except.error e) :
    e = PyErr.rawPostDataException ∨ e = PyErr.unreadablePostError := by
  unfold Request.stream Request._load_stream at h
  dsimp only at h
  split at h
  · simp at h
  · split at h
    · simp at h
    · split at h
      · simp at h
      · split at h
        · simp at h
        · rename_i berr heq
          have he : berr.toPyErr = e := by simpa using h
          cases berr
          · exact Or.inl he.symm
          · exact Or.inr he.symm

theorem parse_request (r : Request) : ((r._parse).1)._request = r._request := by
  unfold Request._parse
  dsimp only
  repeat' split
  all_goals simp only [stream_request]

/-- The facade state after `_load_data_and_files` stores the parsed data
and files and their combination, before the form write-back step. -/
def storeParsed (r1 : Request) (d : DataObj) (f : MultiValueDict) : Request :=
  { r1 with
      _data := Cached.value d
      _files := Cached.value f
      _full_data := Cached.value (if f.entries.isEmpty then d else combineDataFiles d f) }

/-- A facade with a body but no declared content type, whose negotiator
selects no parser. -/
def c8req : Request :=
  Request.init { cfg0 with selectParser := noneNegotiation }
    { baseReq with meta := [("CONTENT_LENGTH", "5")] } none none

/-- C8 (counterexample): on `c8req` no media type is declared (the
content type is the empty string), yet parsing raises
`UnsupportedMediaType` carrying the empty string — so the error is also
raised when no media type is declared, contrary to the claim that it is
not raised under any other condition. -/
theorem claim8_counterexample :
    c8req.content_type = "" ∧
    (c8req._parse).2 = Except.error (PyErr.unsupportedMediaType "") := ⟨rfl, rfl⟩

/-- C8 (amended): `UnsupportedMediaType` is raised by parsing exactly
when the resolved stream is non-null and the negotiator selects no
parser, and it carries the declared content type — which may be the
empty string when no media type is declared; conversely any such error
comes either from that negotiation failure or from the selected parser
itself raising it during decode. -/
theorem claim8_amended :
    (∀ (r : Request) (sv : StreamVal),
      (r.stream).2 = Except.ok (some sv) →
      r.negotiator r.content_type r.parsers = none →
      (r._parse).2 = Except.error (PyErr.unsupportedMediaType r.content_type)) ∧
    (∀ (r : Request) (mt : String),
      (r._parse).2 = Except.error (PyErr.unsupportedMediaType mt) →
      (∃ sv, (r.stream).2 = Except.ok (some sv)) ∧
      (r.negotiator r.content_type r.parsers = none ∧ mt = r.content_type ∨
       ∃ p sv, r.negotiator r.content_type r.parsers = some p ∧
         p.parse sv r.content_type r.parserContextEncoding =
           Except.error (PyErr.unsupportedMediaType mt))) := by
  constructor
  · intro r sv hs hneg
    unfold Request._parse
    dsimp only
    rw [hs]
    dsimp only
    rw [stream_negotiator, stream_parsers, hneg]
  · intro r mt h
    unfold Request._parse at h
    dsimp only at h
    rcases hs : (r.stream).2 with e | os
    · rcases stream_error_cases r e hs with he | he <;> subst he <;> rw [hs] at h <;>
        dsimp only at h
      · split at h
        · simp at h
        · split at h <;> simp at h
      · simp at h
    · rw [hs] at h
      rcases os with _ | sv
      · simp at h
      · dsimp only at h
        rw [stream_negotiator, stream_parsers, stream_pce] at h
        refine ⟨⟨sv, rfl⟩, ?_⟩
        rcases hn : r.negotiator r.content_type r.parsers with _ | p <;> rw [hn] at h <;>
          try dsimp only at h
        · left
          simp only [Except.error.injEq, PyErr.unsupportedMediaType.injEq] at h
          exact ⟨rfl, h.symm⟩
        · right
          rcases hp : p.parse sv r.content_type r.parserContextEncoding with pe | parsed <;>
            rw [hp] at h <;> try dsimp only at h
          · have : pe = PyErr.unsupportedMediaType mt := by simpa using h
            exact ⟨p, sv, rfl, by rw [hp, this]⟩
          · rcases parsed with d | ⟨d, f⟩ <;> simp at h

/-- C8 (amended, witness): the negotiation-failure direction evaluated on
`c8req` (stream non-null, no parser selected). -/
theorem claim8_amended_witness :
    (c8req._parse).2 = Except.error (PyErr.unsupportedMediaType c8req.content_type) :=
  claim8_amended.1 c8req StreamVal.rawRequest rfl rfl

/-- C9: when `_load_data_and_files` completes successfully on a facade
with an unresolved data cache, then for a form content type the parsed
data and files have been mirrored onto the raw request's `_post` and
`_files` caches (the form-field cache equals the facade's cached parsed
data), while for a non-form content type the raw request's form caches
are exactly as they were before parsing. -/
theorem claim9_form_writeback (r : Request)
    (hdata0 : r._data = Cached.empty)
    (hok : (r._load_data_and_files).2 = Except.ok ()) :
    (is_form_media_type r.content_type = true →
      ((r._load_data_and_files).1)._request.hasPost = true ∧
      ((r._load_data_and_files).1)._request.postVal =
        (((r._load_data_and_files).1)._data).getD { kind := DataKind.plainDict, entries := [] } ∧
      ((r._load_data_and_files).1)._request.hasFiles = true ∧
      ((r._load_data_and_files).1)._request.filesVal =
        (((r._load_data_and_files).1)._files).getD { entries := [] }) ∧
    (is_form_media_type r.content_type = false →
      ((r._load_data_and_files).1)._request.hasPost = r._request.hasPost ∧
      ((r._load_data_and_files).1)._request.postVal = r._request.postVal ∧
      ((r._load_data_and_files).1)._request.hasFiles = r._request.hasFiles ∧
      ((r._load_data_and_files).1)._request.filesVal = r._request.filesVal) := by
  rcases hp : r._parse with ⟨r1, pres⟩
  have hr1 : r1._request = r._request := by
    have h1 : (r._parse).1 = r1 := by rw [hp]
    rw [← h1, parse_request]
  rcases pres with e | ⟨d, f⟩
  · have hbad : (r._load_data_and_files).2 = Except.error e := by
      unfold Request._load_data_and_files
      rw [hdata0,
        if_neg (by simp [Cached.isSet] : ¬(Cached.isSet (Cached.empty : Cached DataObj) = true))]
      dsimp only
      rw [hp]
    rw [hbad] at hok
    exact absurd hok (by simp)
  · have hldf : r._load_data_and_files =
        (if is_form_media_type (storeParsed r1 d f).content_type then
           ({ storeParsed r1 d f with
                _request := { (storeParsed r1 d f)._request with
                                hasPost := true
                                postVal := d
                                hasFiles := true
                                filesVal := f } }, Except.ok ())
         else (storeParsed r1 d f, Except.ok ())) := by
      unfold Request._load_data_and_files
      rw [hdata0,
        if_neg (by simp [Cached.isSet] : ¬(Cached.isSet (Cached.empty : Cached DataObj) = true))]
      dsimp only
      rw [hp]
      dsimp only [storeParsed]
    have hct : (storeParsed r1 d f).content_type = r.content_type := by
      unfold Request.content_type storeParsed
      dsimp only
      rw [hr1]
    have hreq2 : (storeParsed r1 d f)._request = r._request := hr1
    rw [hldf, hct]
    constructor
    · intro hform
      rw [if_pos hform]
      exact ⟨rfl, rfl, rfl, rfl⟩
    · intro hform
      rw [if_neg (by simp [hform]), hreq2]
      exact ⟨rfl, rfl, rfl, rfl⟩

/-- A parser for URL-encoded forms returning two form fields. -/
def urlFormParser : Parser :=
  { media_type := "application/x-www-form-urlencoded"
    parse := fun _ _ _ => Except.ok (Parsed.rawData
      { kind := DataKind.queryDict (some "utf-8"), entries := [("a", "1"), ("b", "2")] }) }

/-- A facade with a URL-encoded form body and one form parser. -/
def c9req : Request :=
  Request.init cfg0
    { baseReq with
        meta := [("CONTENT_TYPE", "application/x-www-form-urlencoded"),
                 ("CONTENT_LENGTH", "7")] }
    (some [urlFormParser]) none

/-- C9 (witness): the write-back rule evaluated on `c9req` (form content
type, body `a=1&b=2` parsed into two fields). -/
theorem claim9_witness :
    (is_form_media_type c9req.content_type = true →
      ((c9req._load_data_and_files).1)._request.hasPost = true ∧
      ((c9req._load_data_and_files).1)._request.postVal =
        (((c9req._load_data_and_files).1)._data).getD
          { kind := DataKind.plainDict, entries := [] } ∧
      ((c9req._load_data_and_files).1)._request.hasFiles = true ∧
      ((c9req._load_data_and_files).1)._request.filesVal =
        (((c9req._load_data_and_files).1)._files).getD { entries := [] }) ∧
    (is_form_media_type c9req.content_type = false →
      ((c9req._load_data_and_files).1)._request.hasPost = c9req._request.hasPost ∧
      ((c9req._load_data_and_files).1)._request.postVal = c9req._request.postVal ∧
      ((c9req._load_data_and_files).1)._request.hasFiles = c9req._request.hasFiles ∧
      ((c9req._load_data_and_files).1)._request.filesVal = c9req._request.filesVal) :=
  claim9_form_writeback c9req rfl rfl

/-- C10: a raw request carrying a forced-user or forced-token marker gets
its authenticator list replaced at construction by the single synthetic
`ForcedAuthentication`, so authentication succeeds with exactly the
forced pair and records that synthetic authenticator, never invoking any
configured authenticator. -/
theorem claim10_forced_authentication (cfg : ApiSettings) (req : HttpRequest)
    (ps : Option (List Parser)) (auths : Option (List Authenticator))
    (hforce : req.force_auth_user ≠ none ∨ req.force_auth_token ≠ none) :
    (Request.init cfg req ps auths).authenticators =
      [Authenticator.forced req.force_auth_user req.force_auth_token] ∧
    ((Request.init cfg req ps auths)._authenticate cfg).2 = Except.ok () ∧
    (((Request.init cfg req ps auths)._authenticate cfg).1)._user =
      Cached.value req.force_auth_user ∧
    (((Request.init cfg req ps auths)._authenticate cfg).1)._auth =
      Cached.value req.force_auth_token ∧
    (((Request.init cfg req ps auths)._authenticate cfg).1)._authenticator =
      Cached.value (some (Authenticator.forced req.force_auth_user req.force_auth_token)) := by
  have hl : (Request.init cfg req ps auths).authenticators =
      [Authenticator.forced req.force_auth_user req.force_auth_token] := by
    unfold Request.init
    dsimp only
    rcases hu : req.force_auth_user with _ | u <;> rcases ht : req.force_auth_token with _ | t
    · exact absurd hforce (by simp [hu, ht])
    · rfl
    · rfl
    · rfl
  refine ⟨hl, ?_, ?_, ?_, ?_⟩ <;> (unfold Request._authenticate; rw [hl]; rfl)

/-- A raw request carrying a forced-user marker. -/
def c10rawReq : HttpRequest :=
  { baseReq with force_auth_user := some { tag := "forced-user" } }

/-- C10 (witness): forced authentication evaluated with a configured
authenticator list that would otherwise raise. -/
theorem claim10_witness :
    (Request.init cfg0 c10rawReq none (some [apiFailAuth, goodAuth])).authenticators =
      [Authenticator.forced c10rawReq.force_auth_user c10rawReq.force_auth_token] ∧
    ((Request.init cfg0 c10rawReq none (some [apiFailAuth, goodAuth]))._authenticate cfg0).2 =
      Except.ok () ∧
    (((Request.init cfg0 c10rawReq none (some [apiFailAuth, goodAuth]))._authenticate cfg0).1)._user =
      Cached.value c10rawReq.force_auth_user ∧
    (((Request.init cfg0 c10rawReq none (some [apiFailAuth, goodAuth]))._authenticate cfg0).1)._auth =
      Cached.value c10rawReq.force_auth_token ∧
    (((Request.init cfg0 c10rawReq none
        (some [apiFailAuth, goodAuth]))._authenticate cfg0).1)._authenticator =
      Cached.value (some (Authenticator.forced c10rawReq.force_auth_user
        c10rawReq.force_auth_token)) :=
  claim10_forced_authentication cfg0 c10rawReq none (some [apiFailAuth, goodAuth]) (by decide)

end RequestFacade
